import Mathlib

set_option maxHeartbeats 1000000

/-!
Verification model of the streamlit runtime/session/message-delivery
subsystem: the forward-message cache (deduplication, age-based eviction),
message identity (content hashing), and the Runtime session registry with
its flush/delivery path.

The implementation under verification (streamlit/runtime/runtime.py,
streamlit/runtime/forward_msg_cache.py, streamlit/web/server/server_util.py)
is not part of the provided sources; only its unit tests are.  The
definitions below are therefore modelled from the specification document
(spec.md sections 3 to 8), each marked with a doc comment starting
"Modelled from the spec:".
-/

/-- Modelled from the spec: the terminal status carried by a script-finished
marker message (spec section 6: status in SUCCESS, COMPILE_ERROR,
RUNTIME_ERROR; names follow the ForwardMsg proto constants used by the
tests). -/
inductive ScriptRunStatus where
  | FINISHED_SUCCESSFULLY
  | FINISHED_WITH_COMPILE_ERROR
  | FINISHED_WITH_RUNTIME_ERROR
  deriving DecidableEq

/-- Modelled from the spec: the payload of a ForwardMessage is a tagged
variant, either a full content payload (a UI delta, modelled as the list of
marshalled dataframe values, or a script-lifecycle marker) or a reference to
a previously cached payload by hash (spec section 3, "ForwardMessage"). -/
inductive MsgContent where
  | delta (data : List Int)
  | script_finished (status : ScriptRunStatus)
  | ref_hash (digest : Nat)
  deriving DecidableEq

/-- Modelled from the spec: the metadata block of a ForwardMessage,
carrying the size-class flag `cacheable` and the delta path / element id
that distinguishes otherwise identical messages (spec section 3). -/
structure MsgMetadata where
  cacheable : Bool
  delta_id : Nat
  deriving DecidableEq

/-- Modelled from the spec: a ForwardMessage is content, metadata and a
lazily populated, memoized content hash (spec section 3). -/
structure ForwardMsg where
  content : MsgContent
  metadata : MsgMetadata
  hash : Option Nat
  deriving DecidableEq

/-- Injection of an integer into the naturals, used by the content hash. -/
def encodeInt (i : Int) : Nat :=
  if 0 ≤ i then 2 * i.toNat else 2 * (-i).toNat + 1

/-- Order-sensitive encoding of a list of integers into one natural. -/
def encodeIntList : List Int → Nat
  | [] => 0
  | x :: xs => Nat.pair (encodeInt x) (encodeIntList xs) + 1

/-- Numeric code of a script-run status, used by the content hash. -/
def statusCode : ScriptRunStatus → Nat
  | .FINISHED_SUCCESSFULLY => 0
  | .FINISHED_WITH_COMPILE_ERROR => 1
  | .FINISHED_WITH_RUNTIME_ERROR => 2

/-- Modelled from the spec: deterministic, order-sensitive hash over the
message's content fields only; the hash field itself and the metadata block
are excluded from the hash input (spec section 4.1, computeHash).  The
three payload variants land in disjoint residue classes mod 3, so messages
of different variants never collide. -/
def contentHash : MsgContent → Nat
  | .delta d => 3 * encodeIntList d
  | .script_finished s => 3 * statusCode s + 1
  | .ref_hash h => 3 * h + 2

/-- Modelled from the spec: populate_hash_if_needed returns the message's
digest together with the (possibly updated) message: if the hash field is
already populated it is reused unchanged (memoization), otherwise the
content hash is computed and stored (spec section 4.1, computeHash). -/
def populate_hash_if_needed (m : ForwardMsg) : Nat × ForwardMsg :=
  match m.hash with
  | some h => (h, m)
  | none => (contentHash m.content, { m with hash := some (contentHash m.content) })

/-- Modelled from the spec: size of the serialized payload, one tag byte
plus one byte per marshalled dataframe value; used for the size-class
cacheable check (spec section 3, "a message is cacheable only if its
payload size exceeds a configurable minimum"). -/
def msgSize : MsgContent → Nat
  | .delta d => 1 + d.length
  | .script_finished _ => 1
  | .ref_hash _ => 1

/-- Modelled from the spec: a message-cache entry holds the full message,
the id of the session that produced it (origin bookkeeping only) and an age
counter (spec section 3, "Message Cache Entry"). -/
structure CacheEntry where
  msg : ForwardMsg
  session_id : Nat
  age : Nat
  deriving DecidableEq

/-- Modelled from the spec: the process-wide message cache, a store mapping
a message's content hash to its cache entry (spec section 3). -/
structure ForwardMsgCache where
  entries : List (Nat × CacheEntry)
  deriving DecidableEq

/-- First entry stored under a digest in the cache's association list. -/
def lookupEntry : List (Nat × CacheEntry) → Nat → Option CacheEntry
  | [], _ => none
  | (k, e) :: rest, h => if k = h then some e else lookupEntry rest h

/-- Modelled from the spec: tryGetCached / get_message, an O(1) lookup of
the cached full message by digest, with no side effect (spec section 4.1). -/
def ForwardMsgCache.get_message (c : ForwardMsgCache) (h : Nat) : Option ForwardMsg :=
  (lookupEntry c.entries h).map (fun e => e.msg)

/-- Modelled from the spec: insertOrTouch(digest, message, ownerSessionId).
If the digest is absent an entry with age 0 is created; if present the age
is reset to 0 and the stored message and owner are left unchanged (spec
section 4.1). -/
def ForwardMsgCache.insertOrTouch (c : ForwardMsgCache) (digest : Nat)
    (m : ForwardMsg) (owner : Nat) : ForwardMsgCache :=
  match lookupEntry c.entries digest with
  | some _ =>
    ⟨c.entries.map (fun p => if p.1 = digest then (p.1, { p.2 with age := 0 }) else p)⟩
  | none => ⟨(digest, ⟨m, owner, 0⟩) :: c.entries⟩

/-- Modelled from the spec: ageAllAndEvict(maxAge) increments every entry's
age by 1, then removes every entry whose age exceeds maxAge (spec
section 4.1). -/
def ForwardMsgCache.ageAllAndEvict (c : ForwardMsgCache) (maxAge : Nat) : ForwardMsgCache :=
  ⟨(c.entries.map (fun p => (p.1, { p.2 with age := p.2.age + 1 }))).filter
    (fun p => decide (p.2.age ≤ maxAge))⟩

/-- Well-formedness of the cache: at most one entry per distinct content
hash (spec section 3, Message Cache Entry invariant). -/
def CacheWF (c : ForwardMsgCache) : Prop := (c.entries.map Prod.fst).Nodup

/-- Modelled from the spec: overall runtime lifecycle state machine (spec
section 3, "Runtime"). -/
inductive RuntimeState where
  | INITIAL
  | NO_SESSIONS_CONNECTED
  | ONE_OR_MORE_SESSIONS_CONNECTED
  | STOPPING
  | STOPPED
  deriving DecidableEq

/-- Modelled from the spec: per-session lifecycle state (spec section 3,
"Session"). -/
inductive SessionState where
  | CREATED
  | RUNNING
  | SHUTDOWN_REQUESTED
  | SHUT_DOWN
  deriving DecidableEq

/-- Error conditions raised by runtime operations: RuntimeStoppedError for
lifecycle misuse after stop, the already-started condition for a double
start, and SessionClientDisconnectedError from a transport write to a gone
peer (spec sections 4.3 and 7). -/
inductive RuntimeError where
  | runtimeStopped
  | alreadyStarted
  | sessionClientDisconnected
  deriving DecidableEq

/-- Modelled from the spec: the session client / transport adapter, with a
disconnected flag (writes fail with DISCONNECTED when the peer is gone) and
the list of messages successfully delivered to this client (spec section 6,
Transport/Client collaborator). -/
structure SessionClient where
  disconnected : Bool
  received : List ForwardMsg
  deriving DecidableEq

/-- Modelled from the spec: writeMessage fails with DISCONNECTED when the
peer is gone, otherwise delivers the message to the client (spec
section 6). -/
def SessionClient.write_forward_msg (c : SessionClient) (m : ForwardMsg) :
    Except RuntimeError SessionClient :=
  if c.disconnected then .error .sessionClientDisconnected
  else .ok { c with received := c.received ++ [m] }

/-- Modelled from the spec: a registered session: its immutable id, its
lifecycle state, its transport client and the inbound events routed to it
(spec section 3, "Session"). -/
structure SessionInfo where
  id : Nat
  state : SessionState
  client : SessionClient
  backlog : List Nat
  deriving DecidableEq

/-- Modelled from the spec: the configuration options the core reads:
global.minCachedMessageSize and global.maxCachedMessageAge. -/
structure RuntimeConfig where
  minCachedMessageSize : Nat
  maxCachedMessageAge : Nat
  deriving DecidableEq

/-- Modelled from the spec: the Runtime owns the session registry and the
single shared message cache, and exposes the lifecycle state machine (spec
section 3, "Runtime"). -/
structure Runtime where
  config : RuntimeConfig
  state : RuntimeState
  sessions : List SessionInfo
  message_cache : ForwardMsgCache
  next_session_id : Nat
  deriving DecidableEq

/-- Modelled from the spec: start() transitions INITIAL to
NO_SESSIONS_CONNECTED and fails with an already-started condition if called
twice (spec section 4.3). -/
def Runtime.start (r : Runtime) : Except RuntimeError Runtime :=
  if r.state = .INITIAL then .ok { r with state := .NO_SESSIONS_CONNECTED }
  else .error .alreadyStarted

/-- Modelled from the spec: createSession fails with a runtime-stopped
condition if the state is STOPPING or STOPPED; otherwise it allocates a new
session, registers it, transitions to ONE_OR_MORE_SESSIONS_CONNECTED and
returns the new session id (spec section 4.3). -/
def Runtime.create_session (r : Runtime) (client : SessionClient) :
    Except RuntimeError (Nat × Runtime) :=
  if r.state = .STOPPING ∨ r.state = .STOPPED then .error .runtimeStopped
  else
    .ok (r.next_session_id,
      { r with
        sessions := r.sessions ++ [⟨r.next_session_id, .CREATED, client, []⟩],
        next_session_id := r.next_session_id + 1,
        state := .ONE_OR_MORE_SESSIONS_CONNECTED })

/-- Modelled from the spec: closeSession is an idempotent no-op for an
unknown or already-closed id; otherwise it shuts the session down,
deregisters it and recomputes the connected/not-connected aggregate state
(spec section 4.3). -/
def Runtime.close_session (r : Runtime) (sid : Nat) : Runtime :=
  if r.sessions.any (fun s => s.id == sid) then
    { r with
      sessions := r.sessions.filter (fun s => s.id != sid),
      state :=
        if r.state = .NO_SESSIONS_CONNECTED ∨ r.state = .ONE_OR_MORE_SESSIONS_CONNECTED then
          if (r.sessions.filter (fun s => s.id != sid)).isEmpty then
            .NO_SESSIONS_CONNECTED
          else .ONE_OR_MORE_SESSIONS_CONNECTED
        else r.state }
  else r

/-- Modelled from the spec: a session id is active when it is registered
and not shut down. -/
def Runtime.is_active_session (r : Runtime) (sid : Nat) : Bool :=
  r.sessions.any (fun s => s.id == sid && s.state != SessionState.SHUT_DOWN)

/-- Modelled from the spec: handle_backmsg raises the runtime-stopped
condition after stop (lifecycle misuse, spec section 7), and otherwise
routes the event to the session if present, dropping it silently if the
session id is unknown (spec section 4.3). -/
def Runtime.handle_backmsg (r : Runtime) (sid : Nat) (b : Nat) :
    Except RuntimeError Runtime :=
  if r.state = .STOPPING ∨ r.state = .STOPPED then .error .runtimeStopped
  else
    .ok { r with
      sessions := r.sessions.map
        (fun t => if t.id == sid then { t with backlog := t.backlog ++ [b] } else t) }

/-- Modelled from the spec: stop() transitions to STOPPING (spec
section 4.3). -/
def Runtime.stop (r : Runtime) : Runtime := { r with state := .STOPPING }

/-- Modelled from the spec: once all session teardown completes the runtime
transitions to the terminal STOPPED state (spec section 4.3). -/
def Runtime.finish_stop (r : Runtime) : Runtime :=
  { r with sessions := [], state := .STOPPED }

/-- Modelled from the spec: the flush path stamps the size-class flag on
each outbound message: cacheable iff the payload size exceeds the
configured minimum (spec section 3 invariant). -/
def applyCacheableFlag (cfg : RuntimeConfig) (m : ForwardMsg) : ForwardMsg :=
  { m with metadata :=
    { m.metadata with cacheable := decide (msgSize m.content > cfg.minCachedMessageSize) } }

/-- The outbound message after the flag-stamping and hash-population steps
of the flush path. -/
def prepareMsg (cfg : RuntimeConfig) (m : ForwardMsg) : ForwardMsg :=
  (populate_hash_if_needed (applyCacheableFlag cfg m)).2

/-- The digest the flush path computes (or reuses) for an outbound
message. -/
def msgDigest (cfg : RuntimeConfig) (m : ForwardMsg) : Nat :=
  (populate_hash_if_needed (applyCacheableFlag cfg m)).1

/-- Modelled from the spec: a reference message is a small message carrying
the hash of the original full message and a copy of the original's metadata
(spec sections 4.3 and 6). -/
def create_reference_msg (digest : Nat) (meta : MsgMetadata) : ForwardMsg :=
  { content := .ref_hash digest, metadata := meta, hash := some digest }

/-- Modelled from the spec: the cache ages on terminal run-finished markers
with a successful or recoverable-error status; compile errors skip the
aging step (spec sections 4.1 and 4.3). -/
def advancesCacheAge : MsgContent → Bool
  | .script_finished .FINISHED_SUCCESSFULLY => true
  | .script_finished .FINISHED_WITH_RUNTIME_ERROR => true
  | _ => false

/-- Modelled from the spec: the message actually handed to the transport:
if the prepared message is cacheable and the cache already holds its
digest, a reference message is substituted; otherwise the full message is
sent (spec section 4.3, flush path). -/
def Runtime.outgoing (r : Runtime) (m : ForwardMsg) : ForwardMsg :=
  let m2 := prepareMsg r.config m
  let h := msgDigest r.config m
  if m2.metadata.cacheable && (lookupEntry r.message_cache.entries h).isSome then
    create_reference_msg h m2.metadata
  else m2

/-- Modelled from the spec: the cache state after flushing one message for
session sid: cacheable messages are inserted or touched; a run-finished
marker with an aging status then triggers ageAllAndEvict (spec
section 4.3). -/
def Runtime.postCache (r : Runtime) (sid : Nat) (m : ForwardMsg) : ForwardMsgCache :=
  let m2 := prepareMsg r.config m
  let h := msgDigest r.config m
  let cache1 :=
    if m2.metadata.cacheable then r.message_cache.insertOrTouch h m2 sid
    else r.message_cache
  if advancesCacheAge m2.content then cache1.ageAllAndEvict r.config.maxCachedMessageAge
  else cache1

/-- Modelled from the spec: delivery of one message to one session (the
per-message step of the flush path, spec section 4.3): stamp the cacheable
flag, compute or reuse the hash, substitute a reference on a cache hit,
update the cache, age it on run-finished markers, and hand the result to
the session's transport.  If the transport reports the peer disconnected,
the runtime treats this identically to an explicit closeSession for that
session, with no retry and no requeue (spec section 4.3, delivery failure
policy); no error escapes to the caller. -/
def Runtime.send_message (r : Runtime) (sid : Nat) (m : ForwardMsg) : Runtime :=
  match r.sessions.find? (fun t => t.id == sid) with
  | none => r
  | some s =>
    match s.client.write_forward_msg (r.outgoing m) with
    | .ok c1 =>
      { r with
        message_cache := r.postCache sid m,
        sessions := r.sessions.map
          (fun t => if t.id == sid then { t with client := c1 } else t) }
    | .error _ => Runtime.close_session { r with message_cache := r.postCache sid m } sid

/-- Messages delivered so far to the client of the given session. -/
def Runtime.clientReceived (r : Runtime) (sid : Nat) : List ForwardMsg :=
  match r.sessions.find? (fun t => t.id == sid) with
  | some s => s.client.received
  | none => []


/-- Modelled from the spec: runtime states reachable from a freshly started
Runtime (start() performed on a fresh instance) through the modelled
operations (spec sections 3 and 4.3). -/
inductive Reachable : Runtime → Prop where
  | started (cfg : RuntimeConfig) :
      Reachable ⟨cfg, .NO_SESSIONS_CONNECTED, [], ⟨[]⟩, 0⟩
  | create (r : Runtime) (c : SessionClient) (sid : Nat) (r' : Runtime) :
      Reachable r → r.create_session c = .ok (sid, r') → Reachable r'
  | close (r : Runtime) (sid : Nat) :
      Reachable r → Reachable (r.close_session sid)
  | send (r : Runtime) (sid : Nat) (m : ForwardMsg) :
      Reachable r → Reachable (r.send_message sid m)
  | backmsg (r : Runtime) (sid b : Nat) (r' : Runtime) :
      Reachable r → r.handle_backmsg sid b = .ok r' → Reachable r'
  | stopRequested (r : Runtime) : Reachable r → Reachable r.stop
  | stopCompleted (r : Runtime) : Reachable r → Reachable r.finish_stop

/-- The combined runtime invariant: a started runtime is never INITIAL, no
registered session is shut down (closed sessions are deregistered), and the
connected/not-connected aggregate state mirrors registry emptiness. -/
def RuntimeInv (r : Runtime) : Prop :=
  r.state ≠ RuntimeState.INITIAL
  ∧ (∀ s ∈ r.sessions, s.state ≠ SessionState.SHUT_DOWN)
  ∧ (r.state = RuntimeState.NO_SESSIONS_CONNECTED → r.sessions = [])
  ∧ (r.state = RuntimeState.ONE_OR_MORE_SESSIONS_CONNECTED → r.sessions ≠ [])

/-- Concrete fixtures used by the closed witness theorems below. -/
def testClient : SessionClient := ⟨false, []⟩

/-- A connected session with id 0. -/
def testSession : SessionInfo := ⟨0, .CREATED, testClient, []⟩

/-- A disconnected client (writes raise). -/
def testClientDisc : SessionClient := ⟨true, []⟩

/-- A session whose client is disconnected. -/
def testSessionDisc : SessionInfo := ⟨0, .CREATED, testClientDisc, []⟩

/-- Configuration with minCachedMessageSize 0 and maxCachedMessageAge 1. -/
def testConfig : RuntimeConfig := ⟨0, 1⟩

/-- Configuration with minCachedMessageSize 1000. -/
def testConfig1000 : RuntimeConfig := ⟨1000, 1⟩

/-- A started runtime with one connected session and an empty cache. -/
def testRuntime : Runtime :=
  ⟨testConfig, .ONE_OR_MORE_SESSIONS_CONNECTED, [testSession], ⟨[]⟩, 1⟩

/-- The same runtime with the large minimum cacheable size. -/
def testRuntime1000 : Runtime :=
  ⟨testConfig1000, .ONE_OR_MORE_SESSIONS_CONNECTED, [testSession], ⟨[]⟩, 1⟩

/-- The same runtime but with a disconnected session client. -/
def testRuntimeDisc : Runtime :=
  ⟨testConfig, .ONE_OR_MORE_SESSIONS_CONNECTED, [testSessionDisc], ⟨[]⟩, 1⟩

/-- A dataframe message with delta id 1 and an unset hash. -/
def testMsg1 : ForwardMsg := ⟨.delta [1, 2, 3], ⟨false, 1⟩, none⟩

/-- An identical-content dataframe message with delta id 123. -/
def testMsg2 : ForwardMsg := ⟨.delta [1, 2, 3], ⟨false, 123⟩, none⟩

/-- A script-finished (success) marker message. -/
def testFinishMsg : ForwardMsg := ⟨.script_finished .FINISHED_SUCCESSFULLY, ⟨false, 0⟩, none⟩

/-- A cache entry stored under digest 0. -/
def testEntry : CacheEntry := ⟨⟨.delta [7], ⟨true, 1⟩, some 0⟩, 0, 0⟩

/-- A cache holding testEntry under digest 0. -/
def testCache : ForwardMsgCache := ⟨[(0, testEntry)]⟩

/-- The test runtime with testEntry in its message cache. -/
def testRuntimeC2 : Runtime :=
  ⟨testConfig, .ONE_OR_MORE_SESSIONS_CONNECTED, [testSession], testCache, 1⟩

/-- The runtime obtained from a freshly started runtime by creating one
session. -/
def testRuntimeR1 : Runtime :=
  ⟨testConfig, .ONE_OR_MORE_SESSIONS_CONNECTED, [⟨0, .CREATED, testClient, []⟩], ⟨[]⟩, 1⟩

/-! Basic lemmas about hash population and message preparation. -/

theorem populate_content (m : ForwardMsg) :
    (populate_hash_if_needed m).2.content = m.content := by
  rcases hm : m.hash with _ | h <;> simp [populate_hash_if_needed, hm]

theorem populate_metadata (m : ForwardMsg) :
    (populate_hash_if_needed m).2.metadata = m.metadata := by
  rcases hm : m.hash with _ | h <;> simp [populate_hash_if_needed, hm]

theorem populate_hash_field (m : ForwardMsg) :
    (populate_hash_if_needed m).2.hash = some (populate_hash_if_needed m).1 := by
  rcases hm : m.hash with _ | h <;> simp [populate_hash_if_needed, hm]

theorem populate_idem (m : ForwardMsg) :
    populate_hash_if_needed (populate_hash_if_needed m).2 = populate_hash_if_needed m := by
  rcases hm : m.hash with _ | h <;> simp [populate_hash_if_needed, hm]

theorem populate_of_none (m : ForwardMsg) (hm : m.hash = none) :
    populate_hash_if_needed m =
      (contentHash m.content, { m with hash := some (contentHash m.content) }) := by
  simp [populate_hash_if_needed, hm]

theorem applyCacheableFlag_content (cfg : RuntimeConfig) (m : ForwardMsg) :
    (applyCacheableFlag cfg m).content = m.content := rfl

theorem applyCacheableFlag_hash (cfg : RuntimeConfig) (m : ForwardMsg) :
    (applyCacheableFlag cfg m).hash = m.hash := rfl

theorem prepareMsg_content (cfg : RuntimeConfig) (m : ForwardMsg) :
    (prepareMsg cfg m).content = m.content := by
  rw [prepareMsg, populate_content, applyCacheableFlag_content]

theorem prepareMsg_metadata (cfg : RuntimeConfig) (m : ForwardMsg) :
    (prepareMsg cfg m).metadata =
      { m.metadata with
        cacheable := decide (msgSize m.content > cfg.minCachedMessageSize) } := by
  rw [prepareMsg, populate_metadata]; rfl

theorem prepareMsg_cacheable (cfg : RuntimeConfig) (m : ForwardMsg) :
    (prepareMsg cfg m).metadata.cacheable =
      decide (msgSize m.content > cfg.minCachedMessageSize) := by
  rw [prepareMsg_metadata]

theorem prepareMsg_hash (cfg : RuntimeConfig) (m : ForwardMsg) :
    (prepareMsg cfg m).hash = some (msgDigest cfg m) := by
  rw [prepareMsg, msgDigest, populate_hash_field]

theorem msgDigest_of_none (cfg : RuntimeConfig) (m : ForwardMsg) (hm : m.hash = none) :
    msgDigest cfg m = contentHash m.content := by
  rw [msgDigest, populate_of_none _ (by rw [applyCacheableFlag_hash]; exact hm),
    applyCacheableFlag_content]

theorem prepareMsg_of_none (cfg : RuntimeConfig) (m : ForwardMsg) (hm : m.hash = none) :
    prepareMsg cfg m =
      { content := m.content,
        metadata := { m.metadata with
          cacheable := decide (msgSize m.content > cfg.minCachedMessageSize) },
        hash := some (contentHash m.content) } := by
  rw [prepareMsg, populate_of_none _ (by rw [applyCacheableFlag_hash]; exact hm),
    applyCacheableFlag_content]
  rfl

/-! Lemmas about the cache association list. -/

theorem lookupEntry_notkey (l : List (Nat × CacheEntry)) (h : Nat)
    (hn : h ∉ l.map Prod.fst) : lookupEntry l h = none := by
  induction l with
  | nil => rfl
  | cons p rest ih =>
    obtain ⟨k, e⟩ := p
    simp only [List.map_cons, List.mem_cons, not_or] at hn
    rw [lookupEntry, if_neg (fun hh => hn.1 hh.symm)]
    exact ih hn.2

theorem notkey_of_lookupEntry_none (l : List (Nat × CacheEntry)) (h : Nat)
    (hl : lookupEntry l h = none) : h ∉ l.map Prod.fst := by
  induction l with
  | nil => simp
  | cons p rest ih =>
    obtain ⟨k, e⟩ := p
    rw [lookupEntry] at hl
    by_cases hk : k = h
    · rw [if_pos hk] at hl; cases hl
    · rw [if_neg hk] at hl
      simp only [List.map_cons, List.mem_cons, not_or]
      exact ⟨fun hh => hk hh.symm, ih hl⟩

theorem lookupEntry_map_upd_ne (l : List (Nat × CacheEntry)) (d h : Nat)
    (f : CacheEntry → CacheEntry) (hne : h ≠ d) :
    lookupEntry (l.map (fun p => if p.1 = d then (p.1, f p.2) else p)) h =
      lookupEntry l h := by
  induction l with
  | nil => rfl
  | cons p rest ih =>
    obtain ⟨k, e⟩ := p
    by_cases hk : k = d
    · subst hk
      simp only [List.map_cons, if_pos rfl]
      rw [lookupEntry, lookupEntry, if_neg (fun hh => hne hh.symm),
        if_neg (fun hh => hne hh.symm)]
      exact ih
    · simp only [List.map_cons, if_neg hk]
      rw [lookupEntry, lookupEntry]
      by_cases hkh : k = h
      · rw [if_pos hkh, if_pos hkh]
      · rw [if_neg hkh, if_neg hkh]; exact ih

theorem lookupEntry_map_upd_eq (l : List (Nat × CacheEntry)) (d : Nat) (e : CacheEntry)
    (f : CacheEntry → CacheEntry) (hf : lookupEntry l d = some e) :
    lookupEntry (l.map (fun p => if p.1 = d then (p.1, f p.2) else p)) d =
      some (f e) := by
  induction l with
  | nil => cases hf
  | cons p rest ih =>
    obtain ⟨k, v⟩ := p
    rw [lookupEntry] at hf
    by_cases hk : k = d
    · rw [if_pos hk] at hf
      obtain rfl : v = e := by injection hf
      simp only [List.map_cons, if_pos hk]
      rw [lookupEntry, if_pos hk]
    · rw [if_neg hk] at hf
      simp only [List.map_cons, if_neg hk]
      rw [lookupEntry, if_neg hk]
      exact ih hf

theorem keys_map_upd (l : List (Nat × CacheEntry)) (d : Nat)
    (f : CacheEntry → CacheEntry) :
    (l.map (fun p => if p.1 = d then (p.1, f p.2) else p)).map Prod.fst =
      l.map Prod.fst := by
  induction l with
  | nil => rfl
  | cons p rest ih =>
    obtain ⟨k, e⟩ := p
    by_cases hk : k = d <;>
      simp only [List.map_cons, if_pos, if_neg, hk, ih, ite_true, ite_false]

theorem keys_map_age (l : List (Nat × CacheEntry)) :
    (l.map (fun p => (p.1, { p.2 with age := p.2.age + 1 }))).map Prod.fst =
      l.map Prod.fst := by
  induction l with
  | nil => rfl
  | cons p rest ih => simp only [List.map_cons, ih]

/-! Lemmas about insertOrTouch. -/

theorem keys_map_reset (l : List (Nat × CacheEntry)) (d : Nat) :
    (l.map (fun p => if p.1 = d then (p.1, { p.2 with age := 0 }) else p)).map Prod.fst =
      l.map Prod.fst :=
  keys_map_upd l d (fun x => { x with age := 0 })

theorem insertOrTouch_lookup_ne (c : ForwardMsgCache) (d h : Nat) (m : ForwardMsg)
    (o : Nat) (hne : h ≠ d) :
    lookupEntry (c.insertOrTouch d m o).entries h = lookupEntry c.entries h := by
  rw [ForwardMsgCache.insertOrTouch]
  rcases hl : lookupEntry c.entries d with _ | e
  · show lookupEntry ((d, (⟨m, o, 0⟩ : CacheEntry)) :: c.entries) h = lookupEntry c.entries h
    rw [lookupEntry, if_neg (fun hh => hne hh.symm)]
  · exact lookupEntry_map_upd_ne c.entries d h (fun x => { x with age := 0 }) hne

theorem insertOrTouch_lookup_present (c : ForwardMsgCache) (d : Nat) (m : ForwardMsg)
    (o : Nat) (e : CacheEntry) (hl : lookupEntry c.entries d = some e) :
    lookupEntry (c.insertOrTouch d m o).entries d = some { e with age := 0 } := by
  rw [ForwardMsgCache.insertOrTouch, hl]
  exact lookupEntry_map_upd_eq c.entries d e (fun x => { x with age := 0 }) hl

theorem insertOrTouch_lookup_new (c : ForwardMsgCache) (d : Nat) (m : ForwardMsg)
    (o : Nat) (hl : lookupEntry c.entries d = none) :
    lookupEntry (c.insertOrTouch d m o).entries d = some ⟨m, o, 0⟩ := by
  rw [ForwardMsgCache.insertOrTouch, hl]
  show lookupEntry ((d, (⟨m, o, 0⟩ : CacheEntry)) :: c.entries) d = some ⟨m, o, 0⟩
  rw [lookupEntry, if_pos rfl]

theorem insertOrTouch_entries_new (c : ForwardMsgCache) (d : Nat) (m : ForwardMsg)
    (o : Nat) (hl : lookupEntry c.entries d = none) :
    (c.insertOrTouch d m o).entries = (d, ⟨m, o, 0⟩) :: c.entries := by
  rw [ForwardMsgCache.insertOrTouch, hl]

theorem insertOrTouch_length_present (c : ForwardMsgCache) (d : Nat) (m : ForwardMsg)
    (o : Nat) (e : CacheEntry) (hl : lookupEntry c.entries d = some e) :
    (c.insertOrTouch d m o).entries.length = c.entries.length := by
  rw [ForwardMsgCache.insertOrTouch, hl]
  exact List.length_map c.entries _

theorem insertOrTouch_WF (c : ForwardMsgCache) (d : Nat) (m : ForwardMsg) (o : Nat)
    (hWF : CacheWF c) : CacheWF (c.insertOrTouch d m o) := by
  rw [CacheWF, ForwardMsgCache.insertOrTouch]
  rcases hl : lookupEntry c.entries d with _ | e
  · show (((d, (⟨m, o, 0⟩ : CacheEntry)) :: c.entries).map Prod.fst).Nodup
    rw [List.map_cons]
    exact List.nodup_cons.mpr ⟨notkey_of_lookupEntry_none c.entries d hl, hWF⟩
  · show ((c.entries.map
      (fun p => if p.1 = d then (p.1, { p.2 with age := 0 }) else p)).map Prod.fst).Nodup
    rw [keys_map_reset]
    exact hWF

/-! Lemmas about ageAllAndEvict. -/

theorem keys_filter_subset (l : List (Nat × CacheEntry)) (p : Nat × CacheEntry → Bool)
    (h : Nat) (hmem : h ∈ (l.filter p).map Prod.fst) : h ∈ l.map Prod.fst :=
  ((List.filter_sublist l).map Prod.fst).subset hmem

theorem ageAllAndEvict_WF (c : ForwardMsgCache) (maxAge : Nat) (hWF : CacheWF c) :
    CacheWF (c.ageAllAndEvict maxAge) := by
  rw [CacheWF, ForwardMsgCache.ageAllAndEvict]
  show (((c.entries.map (fun p => (p.1, { p.2 with age := p.2.age + 1 }))).filter
    (fun p => decide (p.2.age ≤ maxAge))).map Prod.fst).Nodup
  have h1 := (List.filter_sublist (p := fun p : Nat × CacheEntry => decide (p.2.age ≤ maxAge))
    (c.entries.map (fun p => (p.1, { p.2 with age := p.2.age + 1 })))).map Prod.fst
  rw [keys_map_age] at h1
  exact List.Nodup.sublist h1 hWF

theorem lookupEntry_age_filter (l : List (Nat × CacheEntry)) (maxAge h : Nat)
    (e : CacheEntry) (hnd : (l.map Prod.fst).Nodup) (hl : lookupEntry l h = some e) :
    lookupEntry ((l.map (fun p => (p.1, { p.2 with age := p.2.age + 1 }))).filter
        (fun p => decide (p.2.age ≤ maxAge))) h =
      if e.age + 1 ≤ maxAge then some { e with age := e.age + 1 } else none := by
  induction l with
  | nil => cases hl
  | cons p rest ih =>
    obtain ⟨k, v⟩ := p
    simp only [List.map_cons, List.nodup_cons] at hnd
    rw [lookupEntry] at hl
    simp only [List.map_cons, List.filter_cons]
    by_cases hk : k = h
    · rw [if_pos hk] at hl
      have hve : v = e := by injection hl
      by_cases hage : e.age + 1 ≤ maxAge
      · rw [if_pos (by simp [hve, hage]), lookupEntry, if_pos hk, if_pos hage, hve]
      · rw [if_neg (by simp [hve, hage]), if_neg hage]
        refine lookupEntry_notkey _ _ (fun hc => ?_)
        have hmem := keys_filter_subset _ _ _ hc
        rw [keys_map_age] at hmem
        exact (hk ▸ hnd.1) hmem
    · rw [if_neg hk] at hl
      by_cases hage : v.age + 1 ≤ maxAge
      · rw [if_pos (by simp [hage]), lookupEntry, if_neg hk]
        exact ih hnd.2 hl
      · rw [if_neg (by simp [hage])]
        exact ih hnd.2 hl

theorem lookupEntry_ageAllAndEvict (c : ForwardMsgCache) (maxAge h : Nat)
    (e : CacheEntry) (hWF : CacheWF c) (hl : lookupEntry c.entries h = some e) :
    lookupEntry (c.ageAllAndEvict maxAge).entries h =
      if e.age + 1 ≤ maxAge then some { e with age := e.age + 1 } else none := by
  rw [ForwardMsgCache.ageAllAndEvict]
  exact lookupEntry_age_filter c.entries maxAge h e hWF hl

/-! Lemmas about the session registry. -/

theorem find?_map_update (l : List SessionInfo) (sid : Nat) (c1 : SessionClient) :
    (l.map (fun t => if t.id == sid then { t with client := c1 } else t)).find?
        (fun t => t.id == sid) =
      (l.find? (fun t => t.id == sid)).map (fun t => { t with client := c1 }) := by
  induction l with
  | nil => rfl
  | cons t rest ih =>
    rw [List.map_cons]
    cases ht : (t.id == sid) with
    | false =>
      have hneg : ¬((fun u : SessionInfo => u.id == sid) t = true) := by simp [ht]
      rw [if_neg (by simp [ht]),
        List.find?_cons_of_neg (p := fun u : SessionInfo => u.id == sid) _ hneg,
        List.find?_cons_of_neg (p := fun u : SessionInfo => u.id == sid) _ hneg, ih]
    | true =>
      have hpos : ((fun u : SessionInfo => u.id == sid) t = true) := by simpa using ht
      have hpos2 : ((fun u : SessionInfo => u.id == sid) { t with client := c1 } = true) := by
        simpa using ht
      rw [if_pos (by simp [ht]),
        List.find?_cons_of_pos (p := fun u : SessionInfo => u.id == sid) _ hpos2,
        List.find?_cons_of_pos (p := fun u : SessionInfo => u.id == sid) _ hpos]
      rfl

theorem any_id_of_find? (l : List SessionInfo) (sid : Nat) (s : SessionInfo)
    (hf : l.find? (fun t => t.id == sid) = some s) :
    l.any (fun t => t.id == sid) = true := by
  have h1 : (s.id == sid) = true := by
    have h2 := List.find?_some (p := fun t : SessionInfo => t.id == sid) hf
    simpa using h2
  exact List.any_eq_true.mpr ⟨s, List.mem_of_find?_eq_some hf, h1⟩

theorem id_of_find? (l : List SessionInfo) (sid : Nat) (s : SessionInfo)
    (hf : l.find? (fun t => t.id == sid) = some s) : s.id = sid := by
  have h2 := List.find?_some (p := fun t : SessionInfo => t.id == sid) hf
  simpa using h2

theorem filtered_no_active (l : List SessionInfo) (sid : Nat) :
    ((l.filter (fun s => s.id != sid)).any
      (fun s => s.id == sid && s.state != SessionState.SHUT_DOWN)) = false := by
  rw [Bool.eq_false_iff]
  intro hc
  rw [List.any_eq_true] at hc
  obtain ⟨x, hx, hpred⟩ := hc
  rw [List.mem_filter] at hx
  rw [Bool.and_eq_true] at hpred
  have h1 : x.id = sid := by simpa using hpred.1
  have h2 : x.id ≠ sid := by simpa using hx.2
  exact h2 h1

theorem mem_filter_ne (l : List SessionInfo) (sid : Nat) (t : SessionInfo)
    (hmem : t ∈ l) (hne : t.id ≠ sid) : t ∈ l.filter (fun s => s.id != sid) :=
  List.mem_filter.mpr ⟨hmem, by simpa using hne⟩

/-! Structural lemmas about send_message and its helpers. -/

theorem populate_fst_of_some (m : ForwardMsg) (d : Nat) (hm : m.hash = some d) :
    (populate_hash_if_needed m).1 = d := by
  simp [populate_hash_if_needed, hm]

theorem outgoing_metadata (r : Runtime) (m : ForwardMsg) :
    (r.outgoing m).metadata = (prepareMsg r.config m).metadata := by
  rw [Runtime.outgoing]
  split <;> rfl

theorem outgoing_hash (r : Runtime) (m : ForwardMsg) :
    (r.outgoing m).hash = some (msgDigest r.config m) := by
  rw [Runtime.outgoing]
  split
  · rfl
  · exact prepareMsg_hash r.config m

theorem outgoing_miss (r : Runtime) (m : ForwardMsg)
    (hmiss : lookupEntry r.message_cache.entries (msgDigest r.config m) = none) :
    r.outgoing m = prepareMsg r.config m := by
  simp [Runtime.outgoing, hmiss]

theorem outgoing_not_cacheable (r : Runtime) (m : ForwardMsg)
    (hc : (prepareMsg r.config m).metadata.cacheable = false) :
    r.outgoing m = prepareMsg r.config m := by
  simp [Runtime.outgoing, hc]

theorem outgoing_hit (r : Runtime) (m : ForwardMsg)
    (hc : (prepareMsg r.config m).metadata.cacheable = true)
    (hhit : (lookupEntry r.message_cache.entries (msgDigest r.config m)).isSome = true) :
    r.outgoing m =
      create_reference_msg (msgDigest r.config m) (prepareMsg r.config m).metadata := by
  simp [Runtime.outgoing, hc, hhit]

theorem postCache_noAge (r : Runtime) (sid : Nat) (m : ForwardMsg)
    (hnAge : advancesCacheAge m.content = false) :
    r.postCache sid m =
      if (prepareMsg r.config m).metadata.cacheable then
        r.message_cache.insertOrTouch (msgDigest r.config m) (prepareMsg r.config m) sid
      else r.message_cache := by
  rw [Runtime.postCache]
  simp only [prepareMsg_content, hnAge, if_false, Bool.false_eq_true]

theorem postCache_age (r : Runtime) (sid : Nat) (m : ForwardMsg)
    (hAge : advancesCacheAge m.content = true) :
    r.postCache sid m =
      (if (prepareMsg r.config m).metadata.cacheable then
        r.message_cache.insertOrTouch (msgDigest r.config m) (prepareMsg r.config m) sid
      else r.message_cache).ageAllAndEvict r.config.maxCachedMessageAge := by
  rw [Runtime.postCache]
  simp only [prepareMsg_content, hAge, if_true]

theorem send_message_of_ok (r : Runtime) (sid : Nat) (s : SessionInfo) (m : ForwardMsg)
    (hf : r.sessions.find? (fun t => t.id == sid) = some s)
    (hconn : s.client.disconnected = false) :
    r.send_message sid m =
      { r with
        message_cache := r.postCache sid m,
        sessions := r.sessions.map (fun t => if t.id == sid then
          { t with client :=
            { s.client with received := s.client.received ++ [r.outgoing m] } }
          else t) } := by
  simp [Runtime.send_message, hf, SessionClient.write_forward_msg, hconn]

theorem send_message_of_disconnected (r : Runtime) (sid : Nat) (s : SessionInfo)
    (m : ForwardMsg) (hf : r.sessions.find? (fun t => t.id == sid) = some s)
    (hdisc : s.client.disconnected = true) :
    r.send_message sid m =
      Runtime.close_session { r with message_cache := r.postCache sid m } sid := by
  simp [Runtime.send_message, hf, SessionClient.write_forward_msg, hdisc]

theorem send_cache_of_ok (r : Runtime) (sid : Nat) (s : SessionInfo) (m : ForwardMsg)
    (hf : r.sessions.find? (fun t => t.id == sid) = some s)
    (hconn : s.client.disconnected = false) :
    (r.send_message sid m).message_cache = r.postCache sid m := by
  rw [send_message_of_ok r sid s m hf hconn]

theorem send_config_of_ok (r : Runtime) (sid : Nat) (s : SessionInfo) (m : ForwardMsg)
    (hf : r.sessions.find? (fun t => t.id == sid) = some s)
    (hconn : s.client.disconnected = false) :
    (r.send_message sid m).config = r.config := by
  rw [send_message_of_ok r sid s m hf hconn]

theorem find?_after_send (r : Runtime) (sid : Nat) (s : SessionInfo) (m : ForwardMsg)
    (hf : r.sessions.find? (fun t => t.id == sid) = some s)
    (hconn : s.client.disconnected = false) :
    (r.send_message sid m).sessions.find? (fun t => t.id == sid) =
      some { s with client :=
        { s.client with received := s.client.received ++ [r.outgoing m] } } := by
  rw [send_message_of_ok r sid s m hf hconn]
  dsimp only
  rw [find?_map_update, hf]
  rfl

theorem clientReceived_send (r : Runtime) (sid : Nat) (s : SessionInfo) (m : ForwardMsg)
    (hf : r.sessions.find? (fun t => t.id == sid) = some s)
    (hconn : s.client.disconnected = false) :
    (r.send_message sid m).clientReceived sid =
      r.clientReceived sid ++ [r.outgoing m] := by
  rw [Runtime.clientReceived, Runtime.clientReceived, find?_after_send r sid s m hf hconn, hf]

/-! Reachability and the aggregate-state invariant of the Runtime. -/

theorem create_session_ok (r : Runtime) (c : SessionClient) (sid : Nat) (r' : Runtime)
    (hc : r.create_session c = .ok (sid, r')) :
    ¬(r.state = RuntimeState.STOPPING ∨ r.state = RuntimeState.STOPPED) ∧
    r' = { r with
      sessions := r.sessions ++ [⟨r.next_session_id, .CREATED, c, []⟩],
      next_session_id := r.next_session_id + 1,
      state := .ONE_OR_MORE_SESSIONS_CONNECTED } := by
  rw [Runtime.create_session] at hc
  by_cases hs : r.state = RuntimeState.STOPPING ∨ r.state = RuntimeState.STOPPED
  · rw [if_pos hs] at hc; cases hc
  · rw [if_neg hs] at hc
    injection hc with h1
    injection h1 with h2 h3
    exact ⟨hs, h3.symm⟩

theorem handle_backmsg_ok (r : Runtime) (sid b : Nat) (r' : Runtime)
    (hc : r.handle_backmsg sid b = .ok r') :
    ¬(r.state = RuntimeState.STOPPING ∨ r.state = RuntimeState.STOPPED) ∧
    r' = { r with
      sessions := r.sessions.map
        (fun t => if t.id == sid then { t with backlog := t.backlog ++ [b] } else t) } := by
  rw [Runtime.handle_backmsg] at hc
  by_cases hs : r.state = RuntimeState.STOPPING ∨ r.state = RuntimeState.STOPPED
  · rw [if_pos hs] at hc; cases hc
  · rw [if_neg hs] at hc
    injection hc with h1
    exact ⟨hs, h1.symm⟩

theorem sessions_map_states (l : List SessionInfo) (f : SessionInfo → SessionInfo)
    (hfs : ∀ t, (f t).state = t.state)
    (h : ∀ s ∈ l, s.state ≠ SessionState.SHUT_DOWN) :
    ∀ s ∈ l.map f, s.state ≠ SessionState.SHUT_DOWN := by
  intro s hs
  obtain ⟨t, ht, rfl⟩ := List.mem_map.mp hs
  rw [hfs]
  exact h t ht

theorem close_session_inv (r : Runtime) (sid : Nat) (h : RuntimeInv r) :
    RuntimeInv (r.close_session sid) := by
  obtain ⟨h1, h2, h3, h4⟩ := h
  rw [Runtime.close_session]
  by_cases hany : r.sessions.any (fun s => s.id == sid) = true
  · rw [if_pos hany]
    refine ⟨?_, ?_, ?_, ?_⟩
    · show (if _ then _ else r.state) ≠ RuntimeState.INITIAL
      split
      · split <;> intro hc <;> cases hc
      · exact h1
    · intro s hs
      exact h2 s (List.mem_filter.mp hs).1
    · show (if _ then _ else r.state) = RuntimeState.NO_SESSIONS_CONNECTED → _
      split
      · split
        · intro _
          next hemp _ => exact List.isEmpty_iff.mp hemp
        · intro hc; cases hc
      · intro hc
        next hnot => exact absurd (Or.inl hc) hnot
    · show (if _ then _ else r.state) = RuntimeState.ONE_OR_MORE_SESSIONS_CONNECTED → _
      split
      · split
        · intro hc; cases hc
        · intro _
          next hemp _ =>
            intro hnil
            have hnil2 : (r.sessions.filter (fun s => s.id != sid)) = [] := hnil
            rw [hnil2] at hemp
            exact hemp rfl
      · intro hc
        next hnot => exact absurd (Or.inr hc) hnot
  · rw [if_neg hany]
    exact ⟨h1, h2, h3, h4⟩

theorem send_message_inv (r : Runtime) (sid : Nat) (m : ForwardMsg)
    (h : RuntimeInv r) : RuntimeInv (r.send_message sid m) := by
  obtain ⟨h1, h2, h3, h4⟩ := h
  rw [Runtime.send_message]
  split
  · exact ⟨h1, h2, h3, h4⟩
  next s hf =>
    split
    next c1 hw =>
      refine ⟨h1, ?_, ?_, ?_⟩
      · exact sessions_map_states r.sessions
          (fun t => if t.id == sid then { t with client := c1 } else t)
          (fun t => by by_cases hh : (t.id == sid) = true <;> simp [hh]) h2
      · intro hst
        show List.map (fun t => if t.id == sid then { t with client := c1 } else t)
          r.sessions = []
        rw [h3 hst]
        rfl
      · intro hst hnil
        have hnil2 : List.map (fun t => if t.id == sid then { t with client := c1 } else t)
          r.sessions = [] := hnil
        exact h4 hst (List.map_eq_nil_iff.mp hnil2)
    next e hw =>
      exact close_session_inv _ sid ⟨h1, h2, h3, h4⟩

theorem runtime_inv_of_reachable (r : Runtime) (hr : Reachable r) : RuntimeInv r := by
  induction hr with
  | started cfg =>
    refine ⟨?_, ?_, ?_, ?_⟩
    · intro hc; cases hc
    · intro s hs; cases hs
    · intro _; rfl
    · intro hc; cases hc
  | create r c sid r' _ hc ih =>
    obtain ⟨hns, rfl⟩ := create_session_ok r c sid r' hc
    obtain ⟨h1, h2, h3, h4⟩ := ih
    refine ⟨?_, ?_, ?_, ?_⟩
    · intro hc2; cases hc2
    · intro s hs
      rcases List.mem_append.mp hs with hmem | hmem
      · exact h2 s hmem
      · rcases List.mem_singleton.mp hmem with rfl
        intro hc2; cases hc2
    · intro hc2; cases hc2
    · intro _
      simp
  | close r sid _ ih => exact close_session_inv r sid ih
  | send r sid m _ ih => exact send_message_inv r sid m ih
  | backmsg r sid b r' _ hc ih =>
    obtain ⟨hns, rfl⟩ := handle_backmsg_ok r sid b r' hc
    obtain ⟨h1, h2, h3, h4⟩ := ih
    refine ⟨h1, ?_, ?_, ?_⟩
    · exact sessions_map_states r.sessions
        (fun t => if t.id == sid then { t with backlog := t.backlog ++ [b] } else t)
        (fun t => by by_cases hh : (t.id == sid) = true <;> simp [hh]) h2
    · intro hst
      show List.map (fun t => if t.id == sid then { t with backlog := t.backlog ++ [b] } else t)
        r.sessions = []
      rw [h3 hst]
      rfl
    · intro hst hnil
      have hnil2 : List.map
          (fun t => if t.id == sid then { t with backlog := t.backlog ++ [b] } else t)
          r.sessions = [] := hnil
      exact h4 hst (List.map_eq_nil_iff.mp hnil2)
  | stopRequested r _ ih =>
    obtain ⟨h1, h2, h3, h4⟩ := ih
    refine ⟨?_, h2, ?_, ?_⟩
    · intro hc; cases hc
    · intro hc; cases hc
    · intro hc; cases hc
  | stopCompleted r _ ih =>
    refine ⟨?_, ?_, ?_, ?_⟩
    · intro hc; cases hc
    · intro s hs; cases hs
    · intro hc; cases hc
    · intro hc; cases hc

/-! Claim theorems. -/

theorem close_session_of_absent (r : Runtime) (sid : Nat)
    (h : ¬(r.sessions.any (fun s => s.id == sid) = true)) :
    r.close_session sid = r := by
  rw [Runtime.close_session, if_neg h]

theorem filtered_no_id (l : List SessionInfo) (sid : Nat) :
    (l.filter (fun s => s.id != sid)).any (fun s => s.id == sid) = false := by
  rw [Bool.eq_false_iff]
  intro hc
  rw [List.any_eq_true] at hc
  obtain ⟨x, hx, hpred⟩ := hc
  rw [List.mem_filter] at hx
  have h1 : x.id = sid := by simpa using hpred
  have h2 : x.id ≠ sid := by simpa using hx.2
  exact h2 h1

/-- C6: after the Runtime has transitioned to STOPPING or STOPPED, every
call to create_session fails with the runtime-stopped error, and every call
to handle_backmsg also fails with that error, even when the given session id
is unknown, rather than being silently dropped. -/
theorem create_session_and_backmsg_after_stop (r : Runtime) (c : SessionClient)
    (sid b : Nat)
    (hstop : r.state = RuntimeState.STOPPING ∨ r.state = RuntimeState.STOPPED) :
    r.create_session c = .error .runtimeStopped ∧
    r.handle_backmsg sid b = .error .runtimeStopped := by
  constructor
  · rw [Runtime.create_session, if_pos hstop]
  · rw [Runtime.handle_backmsg, if_pos hstop]

theorem create_session_and_backmsg_after_stop_witness :
    ((testRuntime.stop).state = RuntimeState.STOPPING ∨
      (testRuntime.stop).state = RuntimeState.STOPPED) ∧
    ((testRuntime.stop).create_session testClient = .error .runtimeStopped ∧
      (testRuntime.stop).handle_backmsg 99 0 = .error .runtimeStopped) :=
  ⟨by decide,
   create_session_and_backmsg_after_stop (testRuntime.stop) testClient 99 0 (by decide)⟩

/-- C7: closing a session id is idempotent: close_session on an id that was
never registered returns the runtime unchanged (no error is possible, the
operation is total), and a second close of the same id is a no-op. -/
theorem close_session_idempotent (r : Runtime) (sid : Nat) :
    ((∀ s ∈ r.sessions, s.id ≠ sid) → r.close_session sid = r) ∧
    (r.close_session sid).close_session sid = r.close_session sid := by
  constructor
  · intro hno
    refine close_session_of_absent r sid ?_
    intro hc
    obtain ⟨s, hs, hpred⟩ := List.any_eq_true.mp hc
    exact hno s hs (by simpa using hpred)
  · refine close_session_of_absent _ sid ?_
    by_cases hany : r.sessions.any (fun s => s.id == sid) = true
    · rw [Runtime.close_session, if_pos hany]
      intro hc
      have hc2 : (r.sessions.filter (fun s => s.id != sid)).any
        (fun s => s.id == sid) = true := hc
      rw [filtered_no_id] at hc2
      cases hc2
    · rw [close_session_of_absent r sid hany]
      exact hany

theorem close_session_idempotent_witness :
    (testRuntime.close_session 99 = testRuntime) ∧
    (testRuntime.close_session 99).close_session 99 = testRuntime.close_session 99 :=
  ⟨(close_session_idempotent testRuntime 99).1 (by decide),
   (close_session_idempotent testRuntime 99).2⟩

/-- C3: insertOrTouch on a digest already present in the cache resets that
entry's age to 0, leaves the stored message and owner unchanged, creates no
second entry (the cache size is unchanged and well-formedness is kept), and
the touched entry survives the next ageAllAndEvict whenever maxAge is at
least 1. -/
theorem insertOrTouch_resend (c : ForwardMsgCache) (h : Nat) (e : CacheEntry)
    (m : ForwardMsg) (owner : Nat) (hWF : CacheWF c)
    (hpresent : lookupEntry c.entries h = some e) :
    lookupEntry (c.insertOrTouch h m owner).entries h =
      some { e with age := 0 } ∧
    (c.insertOrTouch h m owner).entries.length = c.entries.length ∧
    CacheWF (c.insertOrTouch h m owner) ∧
    (∀ maxAge, 1 ≤ maxAge →
      lookupEntry ((c.insertOrTouch h m owner).ageAllAndEvict maxAge).entries h =
        some { e with age := 1 }) := by
  refine ⟨insertOrTouch_lookup_present c h m owner e hpresent,
    insertOrTouch_length_present c h m owner e hpresent,
    insertOrTouch_WF c h m owner hWF, ?_⟩
  intro maxAge hmax
  rw [lookupEntry_ageAllAndEvict _ maxAge h { e with age := 0 }
    (insertOrTouch_WF c h m owner hWF)
    (insertOrTouch_lookup_present c h m owner e hpresent)]
  rw [if_pos (by simpa using hmax)]

theorem insertOrTouch_resend_witness :
    CacheWF testCache ∧ lookupEntry testCache.entries 0 = some testEntry ∧
    (lookupEntry (testCache.insertOrTouch 0 testMsg1 0).entries 0 =
        some { testEntry with age := 0 } ∧
      (testCache.insertOrTouch 0 testMsg1 0).entries.length = testCache.entries.length ∧
      CacheWF (testCache.insertOrTouch 0 testMsg1 0) ∧
      (∀ maxAge, 1 ≤ maxAge →
        lookupEntry ((testCache.insertOrTouch 0 testMsg1 0).ageAllAndEvict maxAge).entries 0 =
          some { testEntry with age := 1 })) :=
  ⟨by rw [CacheWF]; decide, by decide,
   insertOrTouch_resend testCache 0 testEntry testMsg1 0 (by rw [CacheWF]; decide) (by decide)⟩

/-- C2: for a cached entry that is not re-sent, flushing a script-finished
marker with success or recoverable runtime-error status increments the
entry's age by exactly 1 and evicts it exactly when the new age exceeds
maxCachedMessageAge, while a compile-error marker leaves the entry (and its
age) untouched. -/
theorem forwardmsg_cache_clearing (r : Runtime) (sid : Nat) (s : SessionInfo)
    (st : ScriptRunStatus) (fm : ForwardMsg) (h : Nat) (e : CacheEntry)
    (hf : r.sessions.find? (fun t => t.id == sid) = some s)
    (hconn : s.client.disconnected = false)
    (hfm : fm.content = .script_finished st)
    (hWF : CacheWF r.message_cache)
    (hentry : lookupEntry r.message_cache.entries h = some e)
    (hne : h ≠ msgDigest r.config fm) :
    ((st = .FINISHED_SUCCESSFULLY ∨ st = .FINISHED_WITH_RUNTIME_ERROR) →
      lookupEntry (r.send_message sid fm).message_cache.entries h =
        if e.age + 1 ≤ r.config.maxCachedMessageAge
        then some { e with age := e.age + 1 } else none) ∧
    (st = .FINISHED_WITH_COMPILE_ERROR →
      lookupEntry (r.send_message sid fm).message_cache.entries h = some e) := by
  have hstep : ∀ c1 : ForwardMsgCache,
      c1 = (if (prepareMsg r.config fm).metadata.cacheable then
        r.message_cache.insertOrTouch (msgDigest r.config fm) (prepareMsg r.config fm) sid
      else r.message_cache) →
      lookupEntry c1.entries h = some e ∧ CacheWF c1 := by
    intro c1 hc1
    by_cases hc : (prepareMsg r.config fm).metadata.cacheable = true
    · rw [hc1, if_pos hc]
      exact ⟨(insertOrTouch_lookup_ne r.message_cache (msgDigest r.config fm) h
          (prepareMsg r.config fm) sid hne).trans hentry,
        insertOrTouch_WF r.message_cache (msgDigest r.config fm)
          (prepareMsg r.config fm) sid hWF⟩
    · rw [hc1, if_neg hc]
      exact ⟨hentry, hWF⟩
  constructor
  · intro hst
    have hAge : advancesCacheAge fm.content = true := by
      rcases hst with rfl | rfl <;> rw [hfm] <;> rfl
    rw [send_cache_of_ok r sid s fm hf hconn, postCache_age r sid fm hAge]
    obtain ⟨hl1, hwf1⟩ := hstep _ rfl
    rw [lookupEntry_ageAllAndEvict _ _ h e hwf1 hl1]
  · intro hst
    have hAge : advancesCacheAge fm.content = false := by
      rw [hfm, hst]
      rfl
    rw [send_cache_of_ok r sid s fm hf hconn, postCache_noAge r sid fm hAge]
    exact (hstep _ rfl).1

theorem forwardmsg_cache_clearing_witness :
    CacheWF testRuntimeC2.message_cache ∧
    lookupEntry testRuntimeC2.message_cache.entries 0 = some testEntry ∧
    (0 : Nat) ≠ msgDigest testRuntimeC2.config testFinishMsg ∧
    (((ScriptRunStatus.FINISHED_SUCCESSFULLY = ScriptRunStatus.FINISHED_SUCCESSFULLY ∨
        ScriptRunStatus.FINISHED_SUCCESSFULLY = ScriptRunStatus.FINISHED_WITH_RUNTIME_ERROR) →
      lookupEntry (testRuntimeC2.send_message 0 testFinishMsg).message_cache.entries 0 =
        if testEntry.age + 1 ≤ testRuntimeC2.config.maxCachedMessageAge
        then some { testEntry with age := testEntry.age + 1 } else none) ∧
    (ScriptRunStatus.FINISHED_SUCCESSFULLY = ScriptRunStatus.FINISHED_WITH_COMPILE_ERROR →
      lookupEntry (testRuntimeC2.send_message 0 testFinishMsg).message_cache.entries 0 =
        some testEntry)) :=
  ⟨by rw [CacheWF]; decide, by decide, by decide,
   forwardmsg_cache_clearing testRuntimeC2 0 testSession .FINISHED_SUCCESSFULLY
     testFinishMsg 0 testEntry (by decide) (by decide) (by decide)
     (by rw [CacheWF]; decide) (by decide) (by decide)⟩

/-- C8: every outbound message is delivered with its metadata.cacheable
flag set to true exactly when the payload size exceeds the configured
global.minCachedMessageSize. -/
theorem forwardmsg_cacheable_flag (r : Runtime) (sid : Nat) (s : SessionInfo)
    (m : ForwardMsg)
    (hf : r.sessions.find? (fun t => t.id == sid) = some s)
    (hconn : s.client.disconnected = false) :
    (r.send_message sid m).clientReceived sid =
      r.clientReceived sid ++ [r.outgoing m] ∧
    ((r.outgoing m).metadata.cacheable = true ↔
      msgSize m.content > r.config.minCachedMessageSize) := by
  refine ⟨clientReceived_send r sid s m hf hconn, ?_⟩
  rw [outgoing_metadata, prepareMsg_cacheable]
  exact decide_eq_true_iff

theorem forwardmsg_cacheable_flag_witness :
    ((testRuntime.outgoing testMsg1).metadata.cacheable = true ↔
      msgSize testMsg1.content > testRuntime.config.minCachedMessageSize) ∧
    ((testRuntime1000.outgoing testMsg1).metadata.cacheable = true ↔
      msgSize testMsg1.content > testRuntime1000.config.minCachedMessageSize) ∧
    (testRuntime.outgoing testMsg1).metadata.cacheable = true ∧
    (testRuntime1000.outgoing testMsg1).metadata.cacheable = false :=
  ⟨(forwardmsg_cacheable_flag testRuntime 0 testSession testMsg1 (by decide) (by decide)).2,
   (forwardmsg_cacheable_flag testRuntime1000 0 testSession testMsg1 (by decide) (by decide)).2,
   by decide, by decide⟩

/-- C9: computing a message's hash is idempotent and leaves the content and
metadata unchanged; populating the digest happens exactly once (a second
populate call returns the same digest and the same message); and a message
enqueued with a cleared hash field is delivered carrying exactly the digest
computeHash produces for it. -/
theorem forwardmsg_hashing (r : Runtime) (sid : Nat) (s : SessionInfo) (m : ForwardMsg)
    (hf : r.sessions.find? (fun t => t.id == sid) = some s)
    (hconn : s.client.disconnected = false)
    (hhash : m.hash = none) :
    (∀ m2 : ForwardMsg,
      populate_hash_if_needed (populate_hash_if_needed m2).2 = populate_hash_if_needed m2
      ∧ (populate_hash_if_needed m2).2.content = m2.content
      ∧ (populate_hash_if_needed m2).2.metadata = m2.metadata) ∧
    msgDigest r.config m = contentHash m.content ∧
    (r.send_message sid m).clientReceived sid =
      r.clientReceived sid ++ [r.outgoing m] ∧
    (r.outgoing m).hash = some (contentHash m.content) ∧
    (populate_hash_if_needed (r.outgoing m)).1 = contentHash m.content := by
  refine ⟨fun m2 => ⟨populate_idem m2, populate_content m2, populate_metadata m2⟩,
    msgDigest_of_none r.config m hhash, clientReceived_send r sid s m hf hconn, ?_, ?_⟩
  · rw [outgoing_hash, msgDigest_of_none r.config m hhash]
  · rw [populate_fst_of_some (r.outgoing m) (msgDigest r.config m) (outgoing_hash r m)]
    exact msgDigest_of_none r.config m hhash

theorem forwardmsg_hashing_witness :
    testMsg1.hash = none ∧
    (msgDigest testRuntime.config testMsg1 = contentHash testMsg1.content ∧
      (testRuntime.send_message 0 testMsg1).clientReceived 0 =
        testRuntime.clientReceived 0 ++ [testRuntime.outgoing testMsg1] ∧
      (testRuntime.outgoing testMsg1).hash = some (contentHash testMsg1.content) ∧
      (populate_hash_if_needed (testRuntime.outgoing testMsg1)).1 =
        contentHash testMsg1.content) :=
  ⟨by decide,
   let htotal := forwardmsg_hashing testRuntime 0 testSession testMsg1
     (by decide) (by decide) (by decide)
   ⟨htotal.2.1, htotal.2.2.1, htotal.2.2.2.1, htotal.2.2.2.2⟩⟩

/-- C5: when a session's client write raises the disconnected error during
delivery, the Runtime removes exactly that session (is_active_session
becomes false, the result being an explicit close_session of the
cache-updated runtime, with no retry or requeue), no exception escapes
(send_message is total), and every other session is untouched. -/
theorem handle_session_client_disconnected (r : Runtime) (sid : Nat) (s : SessionInfo)
    (m : ForwardMsg)
    (hf : r.sessions.find? (fun t => t.id == sid) = some s)
    (hdisc : s.client.disconnected = true) :
    (r.send_message sid m).is_active_session sid = false ∧
    r.send_message sid m =
      Runtime.close_session { r with message_cache := r.postCache sid m } sid ∧
    (∀ t ∈ r.sessions, t.id ≠ sid → t ∈ (r.send_message sid m).sessions) := by
  have heq := send_message_of_disconnected r sid s m hf hdisc
  refine ⟨?_, heq, ?_⟩
  · rw [heq, Runtime.close_session, if_pos (any_id_of_find? r.sessions sid s hf)]
    rw [Runtime.is_active_session]
    exact filtered_no_active r.sessions sid
  · intro t ht hne
    rw [heq, Runtime.close_session, if_pos (any_id_of_find? r.sessions sid s hf)]
    exact mem_filter_ne r.sessions sid t ht hne

theorem handle_session_client_disconnected_witness :
    ((testRuntimeDisc.send_message 0 testMsg1).is_active_session 0 = false ∧
      testRuntimeDisc.send_message 0 testMsg1 =
        Runtime.close_session
          { testRuntimeDisc with message_cache := testRuntimeDisc.postCache 0 testMsg1 } 0 ∧
      (∀ t ∈ testRuntimeDisc.sessions, t.id ≠ 0 →
        t ∈ (testRuntimeDisc.send_message 0 testMsg1).sessions)) :=
  handle_session_client_disconnected testRuntimeDisc 0 testSessionDisc testMsg1
    (by decide) (by decide)

/-- C1: with minCachedMessageSize 0, sending two distinct message instances
with identical (previously uncached) delta content through the same session
delivers the first in full (payload variant delta, stamped cacheable, with
its digest populated) and inserts it into the message cache, and delivers
the second as a reference message whose ref_hash equals the digest of the
first (and of the second) message and whose metadata is the second
message's own metadata. -/
theorem duplicate_forwardmsg_caching (r : Runtime) (sid : Nat) (s : SessionInfo)
    (d : List Int) (m1 m2 : ForwardMsg)
    (hf : r.sessions.find? (fun t => t.id == sid) = some s)
    (hconn : s.client.disconnected = false)
    (hc1 : m1.content = .delta d) (hc2 : m2.content = .delta d)
    (hh1 : m1.hash = none) (hh2 : m2.hash = none)
    (hmin : r.config.minCachedMessageSize = 0)
    (hmiss : lookupEntry r.message_cache.entries (contentHash (.delta d)) = none) :
    (r.send_message sid m1).clientReceived sid =
      r.clientReceived sid ++
        [⟨.delta d, ⟨true, m1.metadata.delta_id⟩, some (contentHash (.delta d))⟩] ∧
    lookupEntry (r.send_message sid m1).message_cache.entries (contentHash (.delta d)) =
      some ⟨⟨.delta d, ⟨true, m1.metadata.delta_id⟩, some (contentHash (.delta d))⟩,
        sid, 0⟩ ∧
    ((r.send_message sid m1).send_message sid m2).clientReceived sid =
      r.clientReceived sid ++
        [⟨.delta d, ⟨true, m1.metadata.delta_id⟩, some (contentHash (.delta d))⟩,
         ⟨.ref_hash (contentHash (.delta d)), ⟨true, m2.metadata.delta_id⟩,
           some (contentHash (.delta d))⟩] ∧
    msgDigest r.config m1 = contentHash (.delta d) ∧
    msgDigest (r.send_message sid m1).config m2 = contentHash (.delta d) := by
  have hszd : decide (msgSize (MsgContent.delta d) > r.config.minCachedMessageSize) =
      true := by
    rw [hmin]
    refine decide_eq_true ?_
    show 0 < 1 + d.length
    omega
  have hm1p : prepareMsg r.config m1 =
      ⟨.delta d, ⟨true, m1.metadata.delta_id⟩, some (contentHash (.delta d))⟩ := by
    rw [prepareMsg_of_none r.config m1 hh1, hc1, hszd]
  have hd1 : msgDigest r.config m1 = contentHash (.delta d) := by
    rw [msgDigest_of_none r.config m1 hh1, hc1]
  have hmiss1 : lookupEntry r.message_cache.entries (msgDigest r.config m1) = none := by
    rw [hd1]
    exact hmiss
  have hout1 : r.outgoing m1 =
      ⟨.delta d, ⟨true, m1.metadata.delta_id⟩, some (contentHash (.delta d))⟩ := by
    rw [outgoing_miss r m1 hmiss1, hm1p]
  have hrecv1 : (r.send_message sid m1).clientReceived sid =
      r.clientReceived sid ++
        [⟨.delta d, ⟨true, m1.metadata.delta_id⟩, some (contentHash (.delta d))⟩] := by
    rw [clientReceived_send r sid s m1 hf hconn, hout1]
  have hna1 : advancesCacheAge m1.content = false := by
    rw [hc1]
    rfl
  have hcache1 : (r.send_message sid m1).message_cache =
      r.message_cache.insertOrTouch (msgDigest r.config m1) (prepareMsg r.config m1)
        sid := by
    rw [send_cache_of_ok r sid s m1 hf hconn, postCache_noAge r sid m1 hna1,
      if_pos (show (prepareMsg r.config m1).metadata.cacheable = true by rw [hm1p])]
  have hlook1 : lookupEntry (r.send_message sid m1).message_cache.entries
      (contentHash (.delta d)) =
      some ⟨⟨.delta d, ⟨true, m1.metadata.delta_id⟩, some (contentHash (.delta d))⟩,
        sid, 0⟩ := by
    rw [hcache1, hd1, hm1p]
    exact insertOrTouch_lookup_new r.message_cache (contentHash (.delta d)) _ sid hmiss
  have hcfg1 : (r.send_message sid m1).config = r.config :=
    send_config_of_ok r sid s m1 hf hconn
  have hf1 : (r.send_message sid m1).sessions.find? (fun t => t.id == sid) =
      some { s with client :=
        { s.client with received := s.client.received ++ [r.outgoing m1] } } :=
    find?_after_send r sid s m1 hf hconn
  have hconn1 : ({ s with client :=
      { s.client with received := s.client.received ++ [r.outgoing m1] } } :
      SessionInfo).client.disconnected = false := hconn
  have hd2 : msgDigest (r.send_message sid m1).config m2 = contentHash (.delta d) := by
    rw [hcfg1, msgDigest_of_none r.config m2 hh2, hc2]
  have hm2p : prepareMsg (r.send_message sid m1).config m2 =
      ⟨.delta d, ⟨true, m2.metadata.delta_id⟩, some (contentHash (.delta d))⟩ := by
    rw [hcfg1, prepareMsg_of_none r.config m2 hh2, hc2, hszd]
  have hhit : (lookupEntry (r.send_message sid m1).message_cache.entries
      (msgDigest (r.send_message sid m1).config m2)).isSome = true := by
    rw [hd2, hlook1]
    rfl
  have hout2 : (r.send_message sid m1).outgoing m2 =
      ⟨.ref_hash (contentHash (.delta d)), ⟨true, m2.metadata.delta_id⟩,
        some (contentHash (.delta d))⟩ := by
    rw [outgoing_hit (r.send_message sid m1) m2 (by rw [hm2p]) hhit, hd2, hm2p]
    rfl
  have hrecv2 : ((r.send_message sid m1).send_message sid m2).clientReceived sid =
      (r.send_message sid m1).clientReceived sid ++
        [(r.send_message sid m1).outgoing m2] :=
    clientReceived_send (r.send_message sid m1) sid _ m2 hf1 hconn1
  refine ⟨hrecv1, hlook1, ?_, hd1, hd2⟩
  rw [hrecv2, hrecv1, hout2, List.append_assoc]
  rfl

theorem duplicate_forwardmsg_caching_witness :
    testRuntime.config.minCachedMessageSize = 0 ∧
    lookupEntry testRuntime.message_cache.entries (contentHash (.delta [1, 2, 3])) =
      none ∧
    ((testRuntime.send_message 0 testMsg1).clientReceived 0 =
      testRuntime.clientReceived 0 ++
        [⟨.delta [1, 2, 3], ⟨true, testMsg1.metadata.delta_id⟩,
          some (contentHash (.delta [1, 2, 3]))⟩] ∧
    lookupEntry (testRuntime.send_message 0 testMsg1).message_cache.entries
        (contentHash (.delta [1, 2, 3])) =
      some ⟨⟨.delta [1, 2, 3], ⟨true, testMsg1.metadata.delta_id⟩,
        some (contentHash (.delta [1, 2, 3]))⟩, 0, 0⟩ ∧
    ((testRuntime.send_message 0 testMsg1).send_message 0 testMsg2).clientReceived 0 =
      testRuntime.clientReceived 0 ++
        [⟨.delta [1, 2, 3], ⟨true, testMsg1.metadata.delta_id⟩,
          some (contentHash (.delta [1, 2, 3]))⟩,
         ⟨.ref_hash (contentHash (.delta [1, 2, 3])), ⟨true, testMsg2.metadata.delta_id⟩,
           some (contentHash (.delta [1, 2, 3]))⟩] ∧
    msgDigest testRuntime.config testMsg1 = contentHash (.delta [1, 2, 3]) ∧
    msgDigest (testRuntime.send_message 0 testMsg1).config testMsg2 =
      contentHash (.delta [1, 2, 3])) :=
  ⟨by decide, by decide,
   duplicate_forwardmsg_caching testRuntime 0 testSession [1, 2, 3] testMsg1 testMsg2
     (by decide) (by decide) (by decide) (by decide) (by decide) (by decide)
     (by decide) (by decide)⟩

/-- C4: at every reachable point of a started Runtime's lifetime before
stop, the state is ONE_OR_MORE_SESSIONS_CONNECTED iff at least one
registered session is not shut down; in particular creating any session
succeeds and moves the state to ONE_OR_MORE_SESSIONS_CONNECTED, closing a
session while another remains leaves it there, and closing the last session
returns the state to NO_SESSIONS_CONNECTED. -/
theorem runtime_aggregate_state (r : Runtime) (hr : Reachable r)
    (hns1 : r.state ≠ RuntimeState.STOPPING)
    (hns2 : r.state ≠ RuntimeState.STOPPED) :
    (r.state = RuntimeState.ONE_OR_MORE_SESSIONS_CONNECTED ↔
      ∃ s ∈ r.sessions, s.state ≠ SessionState.SHUT_DOWN) ∧
    (∀ c : SessionClient, ∃ r' : Runtime,
      r.create_session c = .ok (r.next_session_id, r') ∧
      r'.state = RuntimeState.ONE_OR_MORE_SESSIONS_CONNECTED) ∧
    (∀ sid : Nat, (∃ s ∈ r.sessions, s.id = sid) → (∃ t ∈ r.sessions, t.id ≠ sid) →
      (r.close_session sid).state = RuntimeState.ONE_OR_MORE_SESSIONS_CONNECTED) ∧
    (∀ sid : Nat, (∃ s ∈ r.sessions, s.id = sid) → (∀ t ∈ r.sessions, t.id = sid) →
      (r.close_session sid).state = RuntimeState.NO_SESSIONS_CONNECTED) := by
  obtain ⟨h1, h2, h3, h4⟩ := runtime_inv_of_reachable r hr
  have hst01 : r.state = RuntimeState.NO_SESSIONS_CONNECTED ∨
      r.state = RuntimeState.ONE_OR_MORE_SESSIONS_CONNECTED := by
    cases hstate : r.state with
    | INITIAL => exact absurd hstate h1
    | NO_SESSIONS_CONNECTED => exact Or.inl rfl
    | ONE_OR_MORE_SESSIONS_CONNECTED => exact Or.inr rfl
    | STOPPING => exact absurd hstate hns1
    | STOPPED => exact absurd hstate hns2
  refine ⟨?_, ?_, ?_, ?_⟩
  · constructor
    · intro hst
      have hne := h4 hst
      rcases hx : r.sessions with _ | ⟨a, rest⟩
      · exact absurd hx hne
      · have hmem : a ∈ r.sessions := by
          rw [hx]
          exact List.mem_cons_self a rest
        exact ⟨a, List.mem_cons_self a rest, h2 a hmem⟩
    · rintro ⟨s, hs, hnshut⟩
      rcases hst01 with hst | hst
      · rw [h3 hst] at hs
        cases hs
      · exact hst
  · intro c
    have hno : ¬(r.state = RuntimeState.STOPPING ∨ r.state = RuntimeState.STOPPED) := by
      rintro (hc | hc)
      exacts [hns1 hc, hns2 hc]
    refine ⟨{ r with
      sessions := r.sessions ++ [⟨r.next_session_id, .CREATED, c, []⟩],
      next_session_id := r.next_session_id + 1,
      state := .ONE_OR_MORE_SESSIONS_CONNECTED }, ?_, rfl⟩
    rw [Runtime.create_session, if_neg hno]
  · rintro sid ⟨s, hs, hsid⟩ ⟨t, ht, htid⟩
    have hany : r.sessions.any (fun u => u.id == sid) = true :=
      List.any_eq_true.mpr ⟨s, hs, by simpa using hsid⟩
    rw [Runtime.close_session, if_pos hany]
    show (if r.state = RuntimeState.NO_SESSIONS_CONNECTED ∨
        r.state = RuntimeState.ONE_OR_MORE_SESSIONS_CONNECTED then
      if (r.sessions.filter (fun u => u.id != sid)).isEmpty then
        RuntimeState.NO_SESSIONS_CONNECTED
      else RuntimeState.ONE_OR_MORE_SESSIONS_CONNECTED
    else r.state) = RuntimeState.ONE_OR_MORE_SESSIONS_CONNECTED
    have hmem : t ∈ r.sessions.filter (fun u => u.id != sid) :=
      mem_filter_ne r.sessions sid t ht htid
    have hnemp : ¬((r.sessions.filter (fun u => u.id != sid)).isEmpty = true) := by
      intro hemp
      rw [List.isEmpty_iff] at hemp
      rw [hemp] at hmem
      cases hmem
    rw [if_pos hst01, if_neg hnemp]
  · rintro sid ⟨s, hs, hsid⟩ hall
    have hany : r.sessions.any (fun u => u.id == sid) = true :=
      List.any_eq_true.mpr ⟨s, hs, by simpa using hsid⟩
    rw [Runtime.close_session, if_pos hany]
    show (if r.state = RuntimeState.NO_SESSIONS_CONNECTED ∨
        r.state = RuntimeState.ONE_OR_MORE_SESSIONS_CONNECTED then
      if (r.sessions.filter (fun u => u.id != sid)).isEmpty then
        RuntimeState.NO_SESSIONS_CONNECTED
      else RuntimeState.ONE_OR_MORE_SESSIONS_CONNECTED
    else r.state) = RuntimeState.NO_SESSIONS_CONNECTED
    have hemp : (r.sessions.filter (fun u => u.id != sid)).isEmpty = true := by
      rw [List.isEmpty_iff, List.filter_eq_nil_iff]
      intro a ha
      simp [hall a ha]
    rw [if_pos hst01, if_pos hemp]

theorem runtime_aggregate_state_witness :
    Reachable testRuntimeR1 ∧
    testRuntimeR1.state ≠ RuntimeState.STOPPING ∧
    testRuntimeR1.state ≠ RuntimeState.STOPPED ∧
    ((testRuntimeR1.state = RuntimeState.ONE_OR_MORE_SESSIONS_CONNECTED ↔
      ∃ s ∈ testRuntimeR1.sessions, s.state ≠ SessionState.SHUT_DOWN) ∧
    (∀ c : SessionClient, ∃ r' : Runtime,
      testRuntimeR1.create_session c = .ok (testRuntimeR1.next_session_id, r') ∧
      r'.state = RuntimeState.ONE_OR_MORE_SESSIONS_CONNECTED) ∧
    (∀ sid : Nat, (∃ s ∈ testRuntimeR1.sessions, s.id = sid) →
      (∃ t ∈ testRuntimeR1.sessions, t.id ≠ sid) →
      (testRuntimeR1.close_session sid).state =
        RuntimeState.ONE_OR_MORE_SESSIONS_CONNECTED) ∧
    (∀ sid : Nat, (∃ s ∈ testRuntimeR1.sessions, s.id = sid) →
      (∀ t ∈ testRuntimeR1.sessions, t.id = sid) →
      (testRuntimeR1.close_session sid).state =
        RuntimeState.NO_SESSIONS_CONNECTED)) := by
  have hreach : Reachable testRuntimeR1 :=
    Reachable.create ⟨testConfig, .NO_SESSIONS_CONNECTED, [], ⟨[]⟩, 0⟩ testClient 0
      testRuntimeR1 (Reachable.started testConfig) rfl
  exact ⟨hreach, by decide, by decide,
    runtime_aggregate_state testRuntimeR1 hreach (by decide) (by decide)⟩
